import Mathlib

/-!
Kalman filter (`kalman_filter.h`): a shallow embedding of the class `KalmanFilter` of
`kalman_filter/include/kalman_filter/kalman_filter.h`, and proofs about it.

* `Eigen::MatrixXd` is embedded as a matrix with exact rational entries (every finite
  `double` is a rational number; the arithmetic is exact instead of rounded).
* The shapes that Eigen checks at run time are carried by the types: the filter has a
  state of `n` rows and `c` columns, a stored control matrix with `m` columns and a stored
  observation matrix with `k` rows.  The explicit overloads accept a control matrix and an
  observation matrix of any conforming width and height; `A` and `Q` are `n × n`, as in the
  data model, so that a time update keeps the shape of the state.
* `Eigen::MatrixBase::inverse()` requires an invertible matrix; its result on a singular
  matrix is undefined.  The embedding returns `none` there, so the measurement update is a
  function into `Option`.
-/

open Matrix

/-- The type `Eigen::MatrixXd`, with `r` rows and `c` columns and exact rational entries. -/
abbrev MatrixXd (r c : ℕ) := Matrix (Fin r) (Fin c) ℚ

/-- The method `Eigen::MatrixBase::inverse()`: the inverse of a square matrix, undefined
(`none`) when the determinant vanishes.  It is computed here by the cofactor formula; in
exact arithmetic every method returns this same matrix. -/
def inverse {k : ℕ} (S : MatrixXd k k) : Option (MatrixXd k k) :=
  if S.det = 0 then none else some (S.det⁻¹ • S.adjugate)

/-- The private members of `class KalmanFilter`. -/
structure KalmanFilter (n m k c : ℕ) where
  x_ : MatrixXd n c
  A_ : MatrixXd n n
  B_ : MatrixXd n m
  C_ : MatrixXd k n
  Q_ : MatrixXd n n
  R_ : MatrixXd k k
  P_ : MatrixXd n n

namespace KalmanFilter

variable {n m k c : ℕ}

/-- The method `KalmanFilter::init(x, A, B, C, Q, R, P)`: assigns all seven members. -/
def init (_s : KalmanFilter n m k c) (x : MatrixXd n c) (A : MatrixXd n n) (B : MatrixXd n m)
    (C : MatrixXd k n) (Q : MatrixXd n n) (R : MatrixXd k k) (P : MatrixXd n n) :
    KalmanFilter n m k c :=
  { x_ := x, A_ := A, B_ := B, C_ := C, Q_ := Q, R_ := R, P_ := P }

/-- The method `KalmanFilter::init(x, P0)`: assigns `x_` and `P_` only. -/
def initState (s : KalmanFilter n m k c) (x : MatrixXd n c) (P0 : MatrixXd n n) :
    KalmanFilter n m k c :=
  let s1 := { s with x_ := x }
  { s1 with P_ := P0 }

/-- The method `KalmanFilter::setA`. -/
def setA (s : KalmanFilter n m k c) (A : MatrixXd n n) : KalmanFilter n m k c :=
  { s with A_ := A }

/-- The method `KalmanFilter::setB`. -/
def setB (s : KalmanFilter n m k c) (B : MatrixXd n m) : KalmanFilter n m k c :=
  { s with B_ := B }

/-- The method `KalmanFilter::setC`. -/
def setC (s : KalmanFilter n m k c) (C : MatrixXd k n) : KalmanFilter n m k c :=
  { s with C_ := C }

/-- The method `KalmanFilter::setQ`. -/
def setQ (s : KalmanFilter n m k c) (Q : MatrixXd n n) : KalmanFilter n m k c :=
  { s with Q_ := Q }

/-- The method `KalmanFilter::setR`. -/
def setR (s : KalmanFilter n m k c) (R : MatrixXd k k) : KalmanFilter n m k c :=
  { s with R_ := R }

/-- The method `KalmanFilter::getX`: the value written to the out-parameter. -/
def getX (s : KalmanFilter n m k c) : MatrixXd n c := s.x_

/-- The method `KalmanFilter::getP`: the value written to the out-parameter. -/
def getP (s : KalmanFilter n m k c) : MatrixXd n n := s.P_

/-- The stored configuration: the members `A_`, `B_`, `C_`, `Q_`, `R_`. -/
def stored (s : KalmanFilter n m k c) :
    MatrixXd n n × MatrixXd n m × MatrixXd k n × MatrixXd n n × MatrixXd k k :=
  (s.A_, s.B_, s.C_, s.Q_, s.R_)

/-- The method `KalmanFilter::predictEKF(x_next, A, Q)`: the two assignments, in the order
of the source. -/
def predictEKF (s : KalmanFilter n m k c) (x_next : MatrixXd n c) (A Q : MatrixXd n n) :
    KalmanFilter n m k c :=
  let s1 := { s with x_ := x_next }
  { s1 with P_ := A * s1.P_ * A.transpose + Q }

/-- The method `KalmanFilter::predictEKF(x_next, A)`: delegates with the stored `Q_`. -/
def predictEKFDefault (s : KalmanFilter n m k c) (x_next : MatrixXd n c) (A : MatrixXd n n) :
    KalmanFilter n m k c :=
  s.predictEKF x_next A s.Q_

/-- The method `KalmanFilter::predict(u, A, B, Q)`. -/
def predict (s : KalmanFilter n m k c) {m' : ℕ} (u : MatrixXd m' c) (A : MatrixXd n n)
    (B : MatrixXd n m') (Q : MatrixXd n n) : KalmanFilter n m k c :=
  let x_next := A * s.x_ + B * u
  s.predictEKF x_next A Q

/-- The method `KalmanFilter::predict(u)`: delegates with the stored `A_`, `B_`, `Q_`. -/
def predictDefault (s : KalmanFilter n m k c) (u : MatrixXd m c) : KalmanFilter n m k c :=
  s.predict u s.A_ s.B_ s.Q_

/-- The local `S` of `updateEKF`: the innovation covariance `R + C * P_ * C.transpose()`. -/
def updateEKF_S (s : KalmanFilter n m k c) {k' : ℕ} (C : MatrixXd k' n) (R : MatrixXd k' k') :
    MatrixXd k' k' :=
  R + C * s.P_ * C.transpose

/-- The local `K` of `updateEKF`: the gain `P_ * C.transpose() * S.inverse()`. -/
def updateEKF_K (s : KalmanFilter n m k c) {k' : ℕ} (C : MatrixXd k' n) (R : MatrixXd k' k') :
    Option (MatrixXd n k') :=
  match inverse (s.updateEKF_S C R) with
  | none => none
  | some Sinv => some (s.P_ * C.transpose * Sinv)

/-- The method `KalmanFilter::updateEKF(y, y_pred, C, R)`: `S` and `K` are computed first,
then `x_` is assigned, then `P_`, in the order of the source. -/
def updateEKF (s : KalmanFilter n m k c) {k' : ℕ} (y y_pred : MatrixXd k' c)
    (C : MatrixXd k' n) (R : MatrixXd k' k') : Option (KalmanFilter n m k c) :=
  match s.updateEKF_K C R with
  | none => none
  | some K =>
    let s1 := { s with x_ := s.x_ + K * (y - y_pred) }
    let I : MatrixXd n n := 1
    some { s1 with P_ := (I - K * C) * s1.P_ }

/-- The method `KalmanFilter::updateEKF(y, y_pred, C)`: delegates with the stored `R_`. -/
def updateEKFDefault (s : KalmanFilter n m k c) (y y_pred : MatrixXd k c) (C : MatrixXd k n) :
    Option (KalmanFilter n m k c) :=
  s.updateEKF y y_pred C s.R_

/-- The method `KalmanFilter::update(y, C, R)`. -/
def update (s : KalmanFilter n m k c) {k' : ℕ} (y : MatrixXd k' c) (C : MatrixXd k' n)
    (R : MatrixXd k' k') : Option (KalmanFilter n m k c) :=
  let y_pred := C * s.x_
  s.updateEKF y y_pred C R

/-- The method `KalmanFilter::update(y)`: delegates with the stored `C_`, `R_`. -/
def updateDefault (s : KalmanFilter n m k c) (y : MatrixXd k c) :
    Option (KalmanFilter n m k c) :=
  s.update y s.C_ s.R_

end KalmanFilter

/-- One call of the public interface that changes `x_` or `P_`, with its arguments. -/
inductive Call (n m k c : ℕ) where
  | predictEKF (x_next : MatrixXd n c) (A Q : MatrixXd n n)
  | predictEKFDefault (x_next : MatrixXd n c) (A : MatrixXd n n)
  | predict {m' : ℕ} (u : MatrixXd m' c) (A : MatrixXd n n) (B : MatrixXd n m')
      (Q : MatrixXd n n)
  | predictDefault (u : MatrixXd m c)
  | updateEKF {k' : ℕ} (y y_pred : MatrixXd k' c) (C : MatrixXd k' n) (R : MatrixXd k' k')
  | updateEKFDefault (y y_pred : MatrixXd k c) (C : MatrixXd k n)
  | update {k' : ℕ} (y : MatrixXd k' c) (C : MatrixXd k' n) (R : MatrixXd k' k')
  | updateDefault (y : MatrixXd k c)

namespace KalmanFilter

variable {n m k c : ℕ}

/-- The filter after one call; `none` when the call inverts a singular matrix. -/
def step (s : KalmanFilter n m k c) : Call n m k c → Option (KalmanFilter n m k c)
  | .predictEKF x_next A Q => some (s.predictEKF x_next A Q)
  | .predictEKFDefault x_next A => some (s.predictEKFDefault x_next A)
  | .predict u A B Q => some (s.predict u A B Q)
  | .predictDefault u => some (s.predictDefault u)
  | .updateEKF y y_pred C R => s.updateEKF y y_pred C R
  | .updateEKFDefault y y_pred C => s.updateEKFDefault y y_pred C
  | .update y C R => s.update y C R
  | .updateDefault y => s.updateDefault y

/-- The filter after a sequence of calls, made one after the other. -/
def run (s : KalmanFilter n m k c) : List (Call n m k c) → Option (KalmanFilter n m k c)
  | [] => some s
  | call :: calls =>
    match s.step call with
    | none => none
    | some s1 => s1.run calls

/-- The noise matrix that a call uses is symmetric: the `Q` or `R` passed to an explicit
overload, the stored `Q_` or `R_` for a default overload. -/
def noiseSymm (s : KalmanFilter n m k c) : Call n m k c → Prop
  | .predictEKF _ _ Q => Q.IsSymm
  | .predictEKFDefault _ _ => s.Q_.IsSymm
  | .predict _ _ _ Q => Q.IsSymm
  | .predictDefault _ => s.Q_.IsSymm
  | .updateEKF _ _ _ R => R.IsSymm
  | .updateEKFDefault _ _ _ => s.R_.IsSymm
  | .update _ _ R => R.IsSymm
  | .updateDefault _ => s.R_.IsSymm

instance (s : KalmanFilter n m k c) (call : Call n m k c) : Decidable (s.noiseSymm call) := by
  cases call <;> (unfold noiseSymm Matrix.IsSymm; infer_instance)

end KalmanFilter

/-- The 1-D filter of the scalar example: `x = 0` and `P = 1`, every matrix `1 × 1`; the
stored matrices are those given. -/
def scalarFilter (A B C Q R : MatrixXd 1 1) : KalmanFilter 1 1 1 1 :=
  { x_ := !![0], A_ := A, B_ := B, C_ := C, Q_ := Q, R_ := R, P_ := !![1] }

/-- A 2-D filter (position and velocity, position observed): `A = [1 1; 0 1]`,
`C = [1 0]`, and `Q`, `R`, `P` the identity. -/
def cvFilter : KalmanFilter 2 1 1 1 :=
  { x_ := !![0; 0], A_ := !![1, 1; 0, 1], B_ := !![0; 1], C_ := !![1, 0], Q_ := 1, R_ := 1,
    P_ := 1 }

/-- A time update followed by a measurement update, both with the stored matrices. -/
def exampleCalls : List (Call 2 1 1 1) :=
  [Call.predictDefault !![1], Call.updateDefault !![2]]


/-! ## The inverse -/

theorem inverse_of_det_ne_zero {k : ℕ} (S : MatrixXd k k) (h : S.det ≠ 0) :
    inverse S = some S⁻¹ := by
  simp [inverse, h, Matrix.inv_def, Ring.inverse_eq_inv']

theorem inverse_of_isUnit {k : ℕ} (S : MatrixXd k k) (h : IsUnit S) :
    inverse S = some S⁻¹ :=
  inverse_of_det_ne_zero S ((Matrix.isUnit_iff_isUnit_det S).1 h).ne_zero

theorem inverse_eq_none_iff {k : ℕ} (S : MatrixXd k k) : inverse S = none ↔ ¬ IsUnit S := by
  rw [Matrix.isUnit_iff_isUnit_det, isUnit_iff_ne_zero]
  simp [inverse]

theorem isUnit_one_by_one (S : MatrixXd 1 1) (h : S 0 0 ≠ 0) : IsUnit S := by
  rw [Matrix.isUnit_iff_isUnit_det, Matrix.det_fin_one, isUnit_iff_ne_zero]
  exact h

theorem inv_one_by_one (S : MatrixXd 1 1) : S⁻¹ = !![(S 0 0)⁻¹] := by
  ext i j
  fin_cases i; fin_cases j
  simp [Matrix.inv_def, Matrix.det_fin_one, Matrix.adjugate_fin_one, Ring.inverse_eq_inv']

theorem smul_one_one_by_one (a : ℚ) : a • (1 : MatrixXd 1 1) = !![a] := by
  ext i j
  fin_cases i; fin_cases j
  simp

theorem inverse_one_by_one (S : MatrixXd 1 1) (h : S 0 0 ≠ 0) :
    inverse S = some ((S 0 0)⁻¹ • 1) := by
  rw [inverse_of_isUnit S (isUnit_one_by_one S h), inv_one_by_one, smul_one_one_by_one]

/-! ## Positive semi-definite and symmetric matrices -/

theorem gain_mul_S {n k' : ℕ} (P : MatrixXd n n) (C : MatrixXd k' n) (R : MatrixXd k' k')
    (hS : IsUnit (R + C * P * Cᵀ)) :
    P * Cᵀ * (R + C * P * Cᵀ)⁻¹ * (R + C * P * Cᵀ) = P * Cᵀ := by
  rw [Matrix.mul_assoc, Matrix.nonsing_inv_mul _ ((Matrix.isUnit_iff_isUnit_det _).1 hS),
    Matrix.mul_one]

theorem updated_P_isSymm {n k' : ℕ} (P : MatrixXd n n) (hP : P.IsSymm) (C : MatrixXd k' n)
    (R : MatrixXd k' k') (hR : R.IsSymm) :
    ((1 - P * Cᵀ * (R + C * P * Cᵀ)⁻¹ * C) * P).IsSymm := by
  have hS : (R + C * P * Cᵀ)ᵀ = R + C * P * Cᵀ := by
    simp only [transpose_add, transpose_mul, transpose_transpose, hP.eq, hR.eq, Matrix.mul_assoc]
  have hSi : ((R + C * P * Cᵀ)⁻¹)ᵀ = (R + C * P * Cᵀ)⁻¹ := by
    rw [Matrix.transpose_nonsing_inv, hS]
  generalize (R + C * P * Cᵀ)⁻¹ = Si at hSi ⊢
  unfold Matrix.IsSymm
  simp only [transpose_sub, transpose_one, transpose_mul, transpose_transpose, hP.eq, hSi,
    Matrix.mul_sub, Matrix.sub_mul, Matrix.mul_one, Matrix.one_mul, Matrix.mul_assoc]

namespace KalmanFilter

variable {n m k c : ℕ}

/-! ## The measurement update on an invertible innovation covariance -/

theorem updateEKF_K_of_isUnit (s : KalmanFilter n m k c) {k' : ℕ} (C : MatrixXd k' n)
    (R : MatrixXd k' k') (hS : IsUnit (R + C * s.P_ * Cᵀ)) :
    s.updateEKF_K C R = some (s.P_ * Cᵀ * (R + C * s.P_ * Cᵀ)⁻¹) := by
  simp only [updateEKF_K, updateEKF_S, inverse_of_isUnit _ hS]

theorem updateEKF_of_isUnit (s : KalmanFilter n m k c) {k' : ℕ} (y y_pred : MatrixXd k' c)
    (C : MatrixXd k' n) (R : MatrixXd k' k') (hS : IsUnit (R + C * s.P_ * Cᵀ)) :
    s.updateEKF y y_pred C R = some
      { s with
        x_ := s.x_ + s.P_ * Cᵀ * (R + C * s.P_ * Cᵀ)⁻¹ * (y - y_pred)
        P_ := (1 - s.P_ * Cᵀ * (R + C * s.P_ * Cᵀ)⁻¹ * C) * s.P_ } := by
  simp only [updateEKF, updateEKF_K_of_isUnit s C R hS]

theorem updateEKF_eq_some_iff (s s1 : KalmanFilter n m k c) {k' : ℕ} (y y_pred : MatrixXd k' c)
    (C : MatrixXd k' n) (R : MatrixXd k' k') :
    s.updateEKF y y_pred C R = some s1 ↔
      IsUnit (R + C * s.P_ * Cᵀ) ∧
      s1 = { s with
        x_ := s.x_ + s.P_ * Cᵀ * (R + C * s.P_ * Cᵀ)⁻¹ * (y - y_pred)
        P_ := (1 - s.P_ * Cᵀ * (R + C * s.P_ * Cᵀ)⁻¹ * C) * s.P_ } := by
  by_cases hS : IsUnit (R + C * s.P_ * Cᵀ)
  · rw [updateEKF_of_isUnit s y y_pred C R hS]
    simp [hS, eq_comm]
  · have h : inverse (s.updateEKF_S C R) = none := (inverse_eq_none_iff _).2 hS
    simp [updateEKF, updateEKF_K, h, hS]

theorem updateEKF_frame (s s1 : KalmanFilter n m k c) {k' : ℕ} (y y_pred : MatrixXd k' c)
    (C : MatrixXd k' n) (R : MatrixXd k' k') (h : s.updateEKF y y_pred C R = some s1) :
    s1.A_ = s.A_ ∧ s1.B_ = s.B_ ∧ s1.C_ = s.C_ ∧ s1.Q_ = s.Q_ ∧ s1.R_ = s.R_ := by
  obtain ⟨-, rfl⟩ := (updateEKF_eq_some_iff s s1 y y_pred C R).1 h
  exact ⟨rfl, rfl, rfl, rfl, rfl⟩

/-! ## The 1-D filter -/

theorem updateEKF_S_one_dim (s : KalmanFilter 1 m k c) (C R : MatrixXd 1 1) :
    s.updateEKF_S C R = (R 0 0 + C 0 0 * s.P_ 0 0 * C 0 0) • 1 := by
  ext i j
  fin_cases i; fin_cases j
  simp [updateEKF_S, Matrix.mul_apply]

theorem updateEKF_K_one_dim (s : KalmanFilter 1 m k c) (C R : MatrixXd 1 1)
    (h : R 0 0 + C 0 0 * s.P_ 0 0 * C 0 0 ≠ 0) :
    s.updateEKF_K C R =
      some ((s.P_ 0 0 * C 0 0 / (R 0 0 + C 0 0 * s.P_ 0 0 * C 0 0)) • 1) := by
  have h1 : (s.updateEKF_S C R) 0 0 ≠ 0 := by
    rw [updateEKF_S_one_dim]; simpa using h
  rw [updateEKF_K, inverse_one_by_one _ h1, updateEKF_S_one_dim]
  simp only [Option.some.injEq]
  ext i j
  fin_cases i; fin_cases j
  simp [Matrix.mul_apply, div_eq_mul_inv]

theorem updateEKF_one_dim (s : KalmanFilter 1 m k c) (y y_pred : MatrixXd 1 c)
    (C R : MatrixXd 1 1) (h : R 0 0 + C 0 0 * s.P_ 0 0 * C 0 0 ≠ 0) :
    s.updateEKF y y_pred C R = some
      { s with
        x_ := s.x_ + (s.P_ 0 0 * C 0 0 / (R 0 0 + C 0 0 * s.P_ 0 0 * C 0 0)) • (y - y_pred)
        P_ := (s.P_ 0 0 * R 0 0 / (R 0 0 + C 0 0 * s.P_ 0 0 * C 0 0)) • 1 } := by
  rw [updateEKF, updateEKF_K_one_dim s C R h]
  simp only [Option.some.injEq]
  congr 1
  · simp
  · ext i j
    fin_cases i; fin_cases j
    simp [Matrix.mul_apply]
    field_simp
    ring

theorem run_cons (s : KalmanFilter n m k c) (call : Call n m k c) (calls : List (Call n m k c)) :
    s.run (call :: calls) = (s.step call).bind fun s1 => s1.run calls := by
  cases h : s.step call <;> simp [run, h]

theorem step_frame (s s1 : KalmanFilter n m k c) (call : Call n m k c)
    (h : s.step call = some s1) :
    s1.A_ = s.A_ ∧ s1.B_ = s.B_ ∧ s1.C_ = s.C_ ∧ s1.Q_ = s.Q_ ∧ s1.R_ = s.R_ := by
  cases call with
  | predictEKF x_next A Q => cases h; exact ⟨rfl, rfl, rfl, rfl, rfl⟩
  | predictEKFDefault x_next A => cases h; exact ⟨rfl, rfl, rfl, rfl, rfl⟩
  | predict u A B Q => cases h; exact ⟨rfl, rfl, rfl, rfl, rfl⟩
  | predictDefault u => cases h; exact ⟨rfl, rfl, rfl, rfl, rfl⟩
  | updateEKF y y_pred C R => exact updateEKF_frame s s1 y y_pred C R h
  | updateEKFDefault y y_pred C => exact updateEKF_frame s s1 y y_pred C s.R_ h
  | update y C R => exact updateEKF_frame s s1 y (C * s.x_) C R h
  | updateDefault y => exact updateEKF_frame s s1 y (s.C_ * s.x_) s.C_ s.R_ h

theorem noiseSymm_congr (s s1 : KalmanFilter n m k c) (hQ : s1.Q_ = s.Q_) (hR : s1.R_ = s.R_)
    (call : Call n m k c) (h : s.noiseSymm call) : s1.noiseSymm call := by
  cases call <;> simp only [noiseSymm, hQ, hR] at h ⊢ <;> exact h

theorem predictEKF_P_isSymm (s : KalmanFilter n m k c) (x_next : MatrixXd n c)
    (A Q : MatrixXd n n) (hP : s.P_.IsSymm) (hQ : Q.IsSymm) :
    (s.predictEKF x_next A Q).P_.IsSymm := by
  show (A * s.P_ * Aᵀ + Q)ᵀ = A * s.P_ * Aᵀ + Q
  simp only [transpose_add, transpose_mul, transpose_transpose, hP.eq, hQ.eq, Matrix.mul_assoc]

theorem updateEKF_P_isSymm (s s1 : KalmanFilter n m k c) {k' : ℕ} (y y_pred : MatrixXd k' c)
    (C : MatrixXd k' n) (R : MatrixXd k' k') (hP : s.P_.IsSymm) (hR : R.IsSymm)
    (h : s.updateEKF y y_pred C R = some s1) : s1.P_.IsSymm := by
  obtain ⟨-, rfl⟩ := (updateEKF_eq_some_iff s s1 y y_pred C R).1 h
  exact updated_P_isSymm s.P_ hP C R hR

theorem step_P_isSymm (s s1 : KalmanFilter n m k c) (call : Call n m k c) (hP : s.P_.IsSymm)
    (hcall : s.noiseSymm call) (h : s.step call = some s1) : s1.P_.IsSymm := by
  cases call with
  | predictEKF x_next A Q => cases h; exact predictEKF_P_isSymm s x_next A Q hP hcall
  | predictEKFDefault x_next A => cases h; exact predictEKF_P_isSymm s x_next A s.Q_ hP hcall
  | predict u A B Q => cases h; exact predictEKF_P_isSymm s _ A Q hP hcall
  | predictDefault u => cases h; exact predictEKF_P_isSymm s _ s.A_ s.Q_ hP hcall
  | updateEKF y y_pred C R => exact updateEKF_P_isSymm s s1 y y_pred C R hP hcall h
  | updateEKFDefault y y_pred C => exact updateEKF_P_isSymm s s1 y y_pred C s.R_ hP hcall h
  | update y C R => exact updateEKF_P_isSymm s s1 y (C * s.x_) C R hP hcall h
  | updateDefault y => exact updateEKF_P_isSymm s s1 y (s.C_ * s.x_) s.C_ s.R_ hP hcall h

end KalmanFilter

/-! ## The example filters -/

theorem scalarFilter_S_ne_zero (A B C Q R : MatrixXd 1 1) :
    (1 : MatrixXd 1 1) 0 0 +
      (1 : MatrixXd 1 1) 0 0 * (scalarFilter A B C Q R).P_ 0 0 * (1 : MatrixXd 1 1) 0 0 ≠ 0 := by
  simp [scalarFilter]

theorem scalarFilter_isUnit_S (A B C Q R : MatrixXd 1 1) :
    IsUnit ((1 : MatrixXd 1 1) + 1 * (scalarFilter A B C Q R).P_ * (1 : MatrixXd 1 1)ᵀ) := by
  apply isUnit_one_by_one
  simp [scalarFilter]

theorem cvFilter_isUnit_S :
    IsUnit (cvFilter.R_ + cvFilter.C_ * cvFilter.P_ * cvFilter.C_ᵀ) := by
  apply isUnit_one_by_one
  simp only [Matrix.add_apply, Matrix.mul_apply, Fin.sum_univ_two, Matrix.transpose_apply]
  simp [cvFilter]

theorem cvFilter_noiseSymm : ∀ call ∈ exampleCalls, cvFilter.noiseSymm call := by
  intro call hcall
  simp only [exampleCalls, List.mem_cons, List.mem_singleton, List.not_mem_nil, or_false] at hcall
  rcases hcall with rfl | rfl
  · exact Matrix.isSymm_one
  · exact Matrix.isSymm_one

theorem cvFilter_predict_isUnit_S :
    IsUnit ((cvFilter.predictDefault !![1]).R_ +
      (cvFilter.predictDefault !![1]).C_ * (cvFilter.predictDefault !![1]).P_ *
        (cvFilter.predictDefault !![1]).C_ᵀ) := by
  apply isUnit_one_by_one
  simp only [KalmanFilter.predictDefault, KalmanFilter.predict, KalmanFilter.predictEKF,
    Matrix.add_apply, Matrix.mul_apply, Fin.sum_univ_two, Matrix.transpose_apply]
  simp [cvFilter]
  norm_num

theorem cvFilter_run_exampleCalls : ∃ s1, cvFilter.run exampleCalls = some s1 := by
  rw [← Option.isSome_iff_exists]
  simp only [exampleCalls, KalmanFilter.run, KalmanFilter.step, KalmanFilter.updateDefault,
    KalmanFilter.update]
  rw [KalmanFilter.updateEKF_of_isUnit _ _ _ _ _ cvFilter_predict_isUnit_S]
  rfl

/-! ## Properties of the specification -/

namespace KalmanFilter

variable {n m k c : ℕ}

/-- C1: on an invertible `S = R + C·P·Cᵀ`, `updateEKF(y, y_pred, C, R)` returns the state
with `x' = x + K·(y − y_pred)` and `P' = (I − K·C)·P` and every other member unchanged,
for one and the same `K = P·Cᵀ·S⁻¹` (so `K·S = P·Cᵀ`), `S` and `K` being formed from the
covariance `P` before the call and `I` being the identity of the size of `P`. -/
theorem updateEKF_state (s : KalmanFilter n m k c) {k' : ℕ} (y y_pred : MatrixXd k' c)
    (C : MatrixXd k' n) (R : MatrixXd k' k') (hS : IsUnit (R + C * s.P_ * Cᵀ)) :
    ∃ K : MatrixXd n k',
      K = s.P_ * Cᵀ * (R + C * s.P_ * Cᵀ)⁻¹ ∧
      K * (R + C * s.P_ * Cᵀ) = s.P_ * Cᵀ ∧
      s.updateEKF y y_pred C R = some
        { s with x_ := s.x_ + K * (y - y_pred), P_ := ((1 : MatrixXd n n) - K * C) * s.P_ } :=
  ⟨_, rfl, gain_mul_S s.P_ C R hS, updateEKF_of_isUnit s y y_pred C R hS⟩

/-- Witness of C1: the 2-D filter `cvFilter`, `y = 2`, `y_pred = 0` and the stored `C`, `R`. -/
theorem updateEKF_state_witness :
    IsUnit (cvFilter.R_ + cvFilter.C_ * cvFilter.P_ * cvFilter.C_ᵀ) ∧
    ∃ K : MatrixXd 2 1,
      K = cvFilter.P_ * cvFilter.C_ᵀ *
        (cvFilter.R_ + cvFilter.C_ * cvFilter.P_ * cvFilter.C_ᵀ)⁻¹ ∧
      K * (cvFilter.R_ + cvFilter.C_ * cvFilter.P_ * cvFilter.C_ᵀ) =
        cvFilter.P_ * cvFilter.C_ᵀ ∧
      cvFilter.updateEKF !![2] !![0] cvFilter.C_ cvFilter.R_ = some
        { cvFilter with
          x_ := cvFilter.x_ + K * ((!![2] : MatrixXd 1 1) - !![0])
          P_ := ((1 : MatrixXd 2 2) - K * cvFilter.C_) * cvFilter.P_ } :=
  ⟨cvFilter_isUnit_S,
    updateEKF_state cvFilter !![2] !![0] cvFilter.C_ cvFilter.R_ cvFilter_isUnit_S⟩

/-- C2: `predictEKF(x_next, A, Q)` returns the state with `x' = x_next` and
`P' = A·P·Aᵀ + Q`, `P` being the covariance before the call, and every other member
unchanged. -/
theorem predictEKF_state (s : KalmanFilter n m k c) (x_next : MatrixXd n c)
    (A Q : MatrixXd n n) :
    s.predictEKF x_next A Q = { s with x_ := x_next, P_ := A * s.P_ * Aᵀ + Q } :=
  rfl

/-- C3: on the 1-D filter with `x = 0` and `P = 1` (whatever matrices are stored),
`update(y, C, R)` with `y = 2`, `C = 1`, `R = 1` forms `S = 2` and `K = 1/2` and returns the
state with `x' = 1` and `P' = 1/2`, exactly. -/
theorem update_scalar_example (A B C Q R : MatrixXd 1 1) :
    (scalarFilter A B C Q R).updateEKF_S (1 : MatrixXd 1 1) 1 = !![2] ∧
    (scalarFilter A B C Q R).updateEKF_K (1 : MatrixXd 1 1) 1 = some !![1 / 2] ∧
    (scalarFilter A B C Q R).update !![2] 1 1 =
      some { scalarFilter A B C Q R with x_ := !![1], P_ := !![1 / 2] } := by
  have h := scalarFilter_S_ne_zero A B C Q R
  refine ⟨?_, ?_, ?_⟩
  · rw [updateEKF_S_one_dim, smul_one_one_by_one]
    simp [scalarFilter]; norm_num
  · rw [updateEKF_K_one_dim _ _ _ h, smul_one_one_by_one]
    simp [scalarFilter]; norm_num
  · rw [update, updateEKF_one_dim _ _ _ _ _ h, smul_one_one_by_one]
    simp [scalarFilter]
    norm_num

/-- C4: the state after `predict(u, A, B, Q)` is the state after
`predictEKF(A·x + B·u, A, Q)` from the same starting state; it has `x' = A·x + B·u` and
`P' = A·P·Aᵀ + Q`. -/
theorem predict_eq_predictEKF (s : KalmanFilter n m k c) {m' : ℕ} (u : MatrixXd m' c)
    (A : MatrixXd n n) (B : MatrixXd n m') (Q : MatrixXd n n) :
    s.predict u A B Q = s.predictEKF (A * s.x_ + B * u) A Q ∧
    (s.predict u A B Q).x_ = A * s.x_ + B * u ∧
    (s.predict u A B Q).P_ = A * s.P_ * Aᵀ + Q :=
  ⟨rfl, rfl, rfl⟩

/-- C5: the state after `update(y, C, R)` is the state after `updateEKF(y, C·x, C, R)` from
the same starting state; on an invertible `S = R + C·P·Cᵀ` it is the state with
`x' = x + K·(y − C·x)`, `K = P·Cᵀ·S⁻¹`. -/
theorem update_eq_updateEKF (s : KalmanFilter n m k c) {k' : ℕ} (y : MatrixXd k' c)
    (C : MatrixXd k' n) (R : MatrixXd k' k') :
    s.update y C R = s.updateEKF y (C * s.x_) C R ∧
    (IsUnit (R + C * s.P_ * Cᵀ) →
      ∃ s1, s.update y C R = some s1 ∧
        s1.x_ = s.x_ + s.P_ * Cᵀ * (R + C * s.P_ * Cᵀ)⁻¹ * (y - C * s.x_)) :=
  ⟨rfl, fun hS => ⟨_, updateEKF_of_isUnit s y (C * s.x_) C R hS, rfl⟩⟩

/-- Witness of C5: the 2-D filter `cvFilter`, `y = 2` and the stored `C`, `R`. -/
theorem update_eq_updateEKF_witness :
    IsUnit (cvFilter.R_ + cvFilter.C_ * cvFilter.P_ * cvFilter.C_ᵀ) ∧
    ∃ s1, cvFilter.update !![2] cvFilter.C_ cvFilter.R_ = some s1 ∧
      s1.x_ = cvFilter.x_ + cvFilter.P_ * cvFilter.C_ᵀ *
        (cvFilter.R_ + cvFilter.C_ * cvFilter.P_ * cvFilter.C_ᵀ)⁻¹ *
          (!![2] - cvFilter.C_ * cvFilter.x_) :=
  ⟨cvFilter_isUnit_S,
    (update_eq_updateEKF cvFilter !![2] cvFilter.C_ cvFilter.R_).2 cvFilter_isUnit_S⟩

/-- C6: each overload without explicit matrices returns the state that the explicit
overload returns on the stored `A_`, `B_`, `C_`, `Q_`, `R_`. -/
theorem default_overloads (s : KalmanFilter n m k c) :
    (∀ u : MatrixXd m c, s.predictDefault u = s.predict u s.A_ s.B_ s.Q_) ∧
    (∀ (x_next : MatrixXd n c) (A : MatrixXd n n),
      s.predictEKFDefault x_next A = s.predictEKF x_next A s.Q_) ∧
    (∀ y : MatrixXd k c, s.updateDefault y = s.update y s.C_ s.R_) ∧
    (∀ (y y_pred : MatrixXd k c) (C : MatrixXd k n),
      s.updateEKFDefault y y_pred C = s.updateEKF y y_pred C s.R_) :=
  ⟨fun _ => rfl, fun _ _ => rfl, fun _ => rfl, fun _ _ _ => rfl⟩

/-- C8: from a symmetric `P`, after any finite sequence of `predict` / `predictEKF` /
`update` / `updateEKF` calls, explicit or default overloads, each with a symmetric noise
matrix (`Q` for a time update, `R` for a measurement update), `P` is symmetric. -/
theorem run_P_isSymm (calls : List (Call n m k c)) (s s1 : KalmanFilter n m k c)
    (hP : s.P_.IsSymm) (hcalls : ∀ call ∈ calls, s.noiseSymm call)
    (hrun : s.run calls = some s1) : s1.P_.IsSymm := by
  induction calls generalizing s with
  | nil =>
    simp only [run, Option.some.injEq] at hrun
    exact hrun ▸ hP
  | cons call calls ih =>
    rw [run_cons] at hrun
    cases hstep : s.step call with
    | none => simp [hstep] at hrun
    | some s2 =>
      rw [hstep] at hrun
      obtain ⟨-, -, -, hQ, hR⟩ := step_frame s s2 call hstep
      exact ih s2 (step_P_isSymm s s2 call hP (hcalls call (List.mem_cons_self _ _)) hstep)
        (fun call2 h2 =>
          noiseSymm_congr s s2 hQ hR call2 (hcalls call2 (List.mem_cons_of_mem _ h2)))
        hrun

/-- Witness of C8: the 2-D filter `cvFilter` and the calls `predict(u)`, `update(y)`. -/
theorem run_P_isSymm_witness :
    cvFilter.P_.IsSymm ∧ (∀ call ∈ exampleCalls, cvFilter.noiseSymm call) ∧
    ∃ s1, cvFilter.run exampleCalls = some s1 ∧ s1.P_.IsSymm :=
  ⟨Matrix.isSymm_one, cvFilter_noiseSymm,
    cvFilter_run_exampleCalls.elim fun s1 h =>
      ⟨s1, h, run_P_isSymm exampleCalls cvFilter s1 Matrix.isSymm_one cvFilter_noiseSymm h⟩⟩

end KalmanFilter

/-! ## Repeated measurement updates of the 1-D filter with `C = 1` -/

namespace KalmanFilter

variable {n m k c : ℕ}

theorem updateEKF_stored (s s1 : KalmanFilter n m k c) {k' : ℕ} (y y_pred : MatrixXd k' c)
    (C : MatrixXd k' n) (R : MatrixXd k' k') (h : s.updateEKF y y_pred C R = some s1) :
    s1.stored = s.stored := by
  obtain ⟨-, rfl⟩ := (updateEKF_eq_some_iff s s1 y y_pred C R).1 h
  rfl

theorem step_stored (s s1 : KalmanFilter n m k c) (call : Call n m k c)
    (h : s.step call = some s1) : s1.stored = s.stored := by
  obtain ⟨hA, hB, hC, hQ, hR⟩ := step_frame s s1 call h
  simp only [stored, hA, hB, hC, hQ, hR]

theorem run_stored (calls : List (Call n m k c)) (s s1 : KalmanFilter n m k c)
    (h : s.run calls = some s1) : s1.stored = s.stored := by
  induction calls generalizing s with
  | nil =>
    simp only [run, Option.some.injEq] at h
    rw [h]
  | cons call calls ih =>
    rw [run_cons] at h
    cases hstep : s.step call with
    | none => simp [hstep] at h
    | some s2 =>
      rw [hstep] at h
      exact (ih s2 h).trans (step_stored s s2 call hstep)

theorem stored_eq_iff (s s1 : KalmanFilter n m k c) :
    s1.stored = s.stored ↔
      s1.A_ = s.A_ ∧ s1.B_ = s.B_ ∧ s1.C_ = s.C_ ∧ s1.Q_ = s.Q_ ∧ s1.R_ = s.R_ := by
  simp only [stored, Prod.mk.injEq]

theorem updateEKF_map_P (s : KalmanFilter n m k c) {m2 k2 c2 : ℕ} (t : KalmanFilter n m2 k2 c2)
    (h : s.P_ = t.P_) {k' : ℕ} (C : MatrixXd k' n) (R : MatrixXd k' k')
    (y1 y_pred1 : MatrixXd k' c) (y2 y_pred2 : MatrixXd k' c2) :
    (s.updateEKF y1 y_pred1 C R).map (fun s1 => s1.P_) =
      (t.updateEKF y2 y_pred2 C R).map (fun t1 => t1.P_) := by
  simp only [updateEKF, updateEKF_K, updateEKF_S, h]
  cases inverse (R + C * t.P_ * Cᵀ) <;> rfl

end KalmanFilter

/-! ## Properties of the specification, continued -/

namespace KalmanFilter

variable {n m k c : ℕ}

/-- C12: no `predict`, `predictEKF`, `update` or `updateEKF` overload changes the stored
`A_`, `B_`, `C_`, `Q_`, `R_`; after any sequence of such calls the default overloads
still use the matrices that were stored before it. -/
theorem calls_keep_stored (s : KalmanFilter n m k c) :
    (∀ (x_next : MatrixXd n c) (A Q : MatrixXd n n),
      (s.predictEKF x_next A Q).stored = s.stored) ∧
    (∀ (x_next : MatrixXd n c) (A : MatrixXd n n),
      (s.predictEKFDefault x_next A).stored = s.stored) ∧
    (∀ {m' : ℕ} (u : MatrixXd m' c) (A : MatrixXd n n) (B : MatrixXd n m') (Q : MatrixXd n n),
      (s.predict u A B Q).stored = s.stored) ∧
    (∀ u : MatrixXd m c, (s.predictDefault u).stored = s.stored) ∧
    (∀ {k' : ℕ} (y y_pred : MatrixXd k' c) (C : MatrixXd k' n) (R : MatrixXd k' k')
      (s1 : KalmanFilter n m k c), s.updateEKF y y_pred C R = some s1 → s1.stored = s.stored) ∧
    (∀ (y y_pred : MatrixXd k c) (C : MatrixXd k n) (s1 : KalmanFilter n m k c),
      s.updateEKFDefault y y_pred C = some s1 → s1.stored = s.stored) ∧
    (∀ {k' : ℕ} (y : MatrixXd k' c) (C : MatrixXd k' n) (R : MatrixXd k' k')
      (s1 : KalmanFilter n m k c), s.update y C R = some s1 → s1.stored = s.stored) ∧
    (∀ (y : MatrixXd k c) (s1 : KalmanFilter n m k c),
      s.updateDefault y = some s1 → s1.stored = s.stored) ∧
    (∀ (calls : List (Call n m k c)) (s1 : KalmanFilter n m k c), s.run calls = some s1 →
      s1.stored = s.stored ∧
      (∀ u : MatrixXd m c, s1.predictDefault u = s1.predict u s.A_ s.B_ s.Q_) ∧
      (∀ (x_next : MatrixXd n c) (A : MatrixXd n n),
        s1.predictEKFDefault x_next A = s1.predictEKF x_next A s.Q_) ∧
      (∀ y : MatrixXd k c, s1.updateDefault y = s1.update y s.C_ s.R_) ∧
      (∀ (y y_pred : MatrixXd k c) (C : MatrixXd k n),
        s1.updateEKFDefault y y_pred C = s1.updateEKF y y_pred C s.R_)) := by
  refine ⟨fun _ _ _ => rfl, fun _ _ => rfl, fun _ _ _ _ => rfl, fun _ => rfl,
    fun y y_pred C R s1 h => updateEKF_stored s s1 y y_pred C R h,
    fun y y_pred C s1 h => updateEKF_stored s s1 y y_pred C s.R_ h,
    fun y C R s1 h => updateEKF_stored s s1 y (C * s.x_) C R h,
    fun y s1 h => updateEKF_stored s s1 y (s.C_ * s.x_) s.C_ s.R_ h, ?_⟩
  intro calls s1 h
  have hs := run_stored calls s s1 h
  obtain ⟨hA, hB, hC, hQ, hR⟩ := (stored_eq_iff s s1).1 hs
  refine ⟨hs, fun u => ?_, fun x_next A => ?_, fun y => ?_, fun y y_pred C => ?_⟩
  · rw [← hA, ← hB, ← hQ]; rfl
  · rw [← hQ]; rfl
  · rw [← hC, ← hR]; rfl
  · rw [← hR]; rfl

/-- Witness of C12: the 2-D filter `cvFilter` after `predict(u)` and `update(y)`. -/
theorem calls_keep_stored_witness :
    ∃ s1, cvFilter.run exampleCalls = some s1 ∧ s1.stored = cvFilter.stored :=
  cvFilter_run_exampleCalls.elim fun s1 h =>
    ⟨s1, h, ((calls_keep_stored cvFilter).2.2.2.2.2.2.2.2 exampleCalls s1 h).1⟩

/-- C13: each setter replaces exactly one stored matrix: `setA(M)` makes `A_ = M` and
leaves `x_`, `B_`, `C_`, `Q_`, `R_`, `P_` unchanged, and likewise `setB`, `setC`, `setQ`,
`setR`; what `getX` and `getP` return is the same before and after a setter call. -/
theorem setters_frame (s : KalmanFilter n m k c) :
    (∀ M : MatrixXd n n, (s.setA M).A_ = M ∧ (s.setA M).x_ = s.x_ ∧ (s.setA M).B_ = s.B_ ∧
      (s.setA M).C_ = s.C_ ∧ (s.setA M).Q_ = s.Q_ ∧ (s.setA M).R_ = s.R_ ∧
      (s.setA M).P_ = s.P_ ∧ (s.setA M).getX = s.getX ∧ (s.setA M).getP = s.getP) ∧
    (∀ M : MatrixXd n m, (s.setB M).B_ = M ∧ (s.setB M).x_ = s.x_ ∧ (s.setB M).A_ = s.A_ ∧
      (s.setB M).C_ = s.C_ ∧ (s.setB M).Q_ = s.Q_ ∧ (s.setB M).R_ = s.R_ ∧
      (s.setB M).P_ = s.P_ ∧ (s.setB M).getX = s.getX ∧ (s.setB M).getP = s.getP) ∧
    (∀ M : MatrixXd k n, (s.setC M).C_ = M ∧ (s.setC M).x_ = s.x_ ∧ (s.setC M).A_ = s.A_ ∧
      (s.setC M).B_ = s.B_ ∧ (s.setC M).Q_ = s.Q_ ∧ (s.setC M).R_ = s.R_ ∧
      (s.setC M).P_ = s.P_ ∧ (s.setC M).getX = s.getX ∧ (s.setC M).getP = s.getP) ∧
    (∀ M : MatrixXd n n, (s.setQ M).Q_ = M ∧ (s.setQ M).x_ = s.x_ ∧ (s.setQ M).A_ = s.A_ ∧
      (s.setQ M).B_ = s.B_ ∧ (s.setQ M).C_ = s.C_ ∧ (s.setQ M).R_ = s.R_ ∧
      (s.setQ M).P_ = s.P_ ∧ (s.setQ M).getX = s.getX ∧ (s.setQ M).getP = s.getP) ∧
    (∀ M : MatrixXd k k, (s.setR M).R_ = M ∧ (s.setR M).x_ = s.x_ ∧ (s.setR M).A_ = s.A_ ∧
      (s.setR M).B_ = s.B_ ∧ (s.setR M).C_ = s.C_ ∧ (s.setR M).Q_ = s.Q_ ∧
      (s.setR M).P_ = s.P_ ∧ (s.setR M).getX = s.getX ∧ (s.setR M).getP = s.getP) :=
  ⟨fun _ => ⟨rfl, rfl, rfl, rfl, rfl, rfl, rfl, rfl, rfl⟩,
    fun _ => ⟨rfl, rfl, rfl, rfl, rfl, rfl, rfl, rfl, rfl⟩,
    fun _ => ⟨rfl, rfl, rfl, rfl, rfl, rfl, rfl, rfl, rfl⟩,
    fun _ => ⟨rfl, rfl, rfl, rfl, rfl, rfl, rfl, rfl, rfl⟩,
    fun _ => ⟨rfl, rfl, rfl, rfl, rfl, rfl, rfl, rfl, rfl⟩⟩

/-- C14: the partial `init(x, P0)` makes `x_ = x` and `P_ = P0` and leaves `A_`, `B_`, `C_`,
`Q_`, `R_` unchanged, so a following `predict(u)` or `update(y)` uses the matrices stored
before it; afterwards `getX` returns `x` and `getP` returns `P0`. -/
theorem initState_frame (s : KalmanFilter n m k c) (x : MatrixXd n c) (P0 : MatrixXd n n) :
    (s.initState x P0).x_ = x ∧ (s.initState x P0).P_ = P0 ∧
    (s.initState x P0).A_ = s.A_ ∧ (s.initState x P0).B_ = s.B_ ∧
    (s.initState x P0).C_ = s.C_ ∧ (s.initState x P0).Q_ = s.Q_ ∧
    (s.initState x P0).R_ = s.R_ ∧
    (∀ u : MatrixXd m c,
      (s.initState x P0).predictDefault u = (s.initState x P0).predict u s.A_ s.B_ s.Q_) ∧
    (∀ y : MatrixXd k c,
      (s.initState x P0).updateDefault y = (s.initState x P0).update y s.C_ s.R_) ∧
    (s.initState x P0).getX = x ∧ (s.initState x P0).getP = P0 :=
  ⟨rfl, rfl, rfl, rfl, rfl, rfl, rfl, fun _ => rfl, fun _ => rfl, rfl, rfl⟩

/-- C15: a setter called with the current value of its matrix returns the state unchanged:
`setQ(Q_)` does, so `predict(u)` and `predictEKF(x_next, A)` after it return what they
return without it; likewise `setA`, `setB`, `setC`, `setR` with their current values. -/
theorem setters_current_value (s : KalmanFilter n m k c) :
    s.setQ s.Q_ = s ∧
    (∀ u : MatrixXd m c, (s.setQ s.Q_).predictDefault u = s.predictDefault u) ∧
    (∀ (x_next : MatrixXd n c) (A : MatrixXd n n),
      (s.setQ s.Q_).predictEKFDefault x_next A = s.predictEKFDefault x_next A) ∧
    s.setA s.A_ = s ∧ s.setB s.B_ = s ∧ s.setC s.C_ = s ∧ s.setR s.R_ = s :=
  ⟨rfl, fun _ => rfl, fun _ _ => rfl, rfl, rfl, rfl, rfl⟩

/-- C16: the covariance after a time update does not depend on the propagated state: two
filters with the same `P` have the same `P'` after `predictEKF` with the same `A`, `Q` and
any `x`, `x_next`, and after `predict` with the same `A`, `Q` and any `x`, `u`, `B`. -/
theorem predict_P_independent (s : KalmanFilter n m k c) {m2 k2 c2 : ℕ}
    (t : KalmanFilter n m2 k2 c2) (A Q : MatrixXd n n) (h : s.P_ = t.P_) :
    (∀ (x_next1 : MatrixXd n c) (x_next2 : MatrixXd n c2),
      (s.predictEKF x_next1 A Q).P_ = (t.predictEKF x_next2 A Q).P_) ∧
    (∀ {m1 m3 : ℕ} (u1 : MatrixXd m1 c) (B1 : MatrixXd n m1) (u2 : MatrixXd m3 c2)
      (B2 : MatrixXd n m3), (s.predict u1 A B1 Q).P_ = (t.predict u2 A B2 Q).P_) := by
  refine ⟨fun _ _ => ?_, fun _ _ _ _ => ?_⟩
  · show A * s.P_ * Aᵀ + Q = A * t.P_ * Aᵀ + Q
    rw [h]
  · show A * s.P_ * Aᵀ + Q = A * t.P_ * Aᵀ + Q
    rw [h]

/-- Witness of C16: the 2-D filter `cvFilter` and the same filter re-initialised with another
state `x`, with different `x_next`, `u` and `B`. -/
theorem predict_P_independent_witness :
    cvFilter.P_ = (cvFilter.initState !![5; 6] cvFilter.P_).P_ ∧
    (cvFilter.predictEKF !![3; 4] cvFilter.A_ cvFilter.Q_).P_ =
      ((cvFilter.initState !![5; 6] cvFilter.P_).predictEKF !![7; 8] cvFilter.A_
        cvFilter.Q_).P_ ∧
    (cvFilter.predict (!![1] : MatrixXd 1 1) cvFilter.A_ !![0; 1] cvFilter.Q_).P_ =
      ((cvFilter.initState !![5; 6] cvFilter.P_).predict (!![2; 3] : MatrixXd 2 1) cvFilter.A_
        !![1, 0; 0, 1] cvFilter.Q_).P_ :=
  ⟨rfl,
    (predict_P_independent cvFilter (cvFilter.initState !![5; 6] cvFilter.P_) cvFilter.A_
      cvFilter.Q_ rfl).1 !![3; 4] !![7; 8],
    (predict_P_independent cvFilter (cvFilter.initState !![5; 6] cvFilter.P_) cvFilter.A_
      cvFilter.Q_ rfl).2 !![1] !![0; 1] !![2; 3] !![1, 0; 0, 1]⟩

/-- C17: the covariance after a measurement update does not depend on the measurement: two
filters with the same `P` get the same `P'` (or both get no result) from `updateEKF` with
the same `C`, `R` and any `x`, `y`, `y_pred`, and from `update` with the same `C`, `R` and
any `x`, `y`. -/
theorem update_P_independent (s : KalmanFilter n m k c) {m2 k2 c2 : ℕ}
    (t : KalmanFilter n m2 k2 c2) {k' : ℕ} (C : MatrixXd k' n) (R : MatrixXd k' k')
    (h : s.P_ = t.P_) :
    (∀ (y1 y_pred1 : MatrixXd k' c) (y2 y_pred2 : MatrixXd k' c2),
      (s.updateEKF y1 y_pred1 C R).map (fun s1 => s1.P_) =
        (t.updateEKF y2 y_pred2 C R).map (fun t1 => t1.P_)) ∧
    (∀ (y1 : MatrixXd k' c) (y2 : MatrixXd k' c2),
      (s.update y1 C R).map (fun s1 => s1.P_) = (t.update y2 C R).map (fun t1 => t1.P_)) :=
  ⟨fun y1 y_pred1 y2 y_pred2 => updateEKF_map_P s t h C R y1 y_pred1 y2 y_pred2,
    fun y1 y2 => updateEKF_map_P s t h C R y1 (C * s.x_) y2 (C * t.x_)⟩

/-- Witness of C17: the 2-D filter `cvFilter` and the same filter re-initialised with another
state `x`, with different measurements; both updates return a state. -/
theorem update_P_independent_witness :
    cvFilter.P_ = (cvFilter.initState !![5; 6] cvFilter.P_).P_ ∧
    (∃ s1, cvFilter.updateEKF !![2] !![0] cvFilter.C_ cvFilter.R_ = some s1) ∧
    (cvFilter.updateEKF !![2] !![0] cvFilter.C_ cvFilter.R_).map (fun s1 => s1.P_) =
      ((cvFilter.initState !![5; 6] cvFilter.P_).updateEKF !![9] !![4] cvFilter.C_
        cvFilter.R_).map (fun t1 => t1.P_) ∧
    (cvFilter.update !![2] cvFilter.C_ cvFilter.R_).map (fun s1 => s1.P_) =
      ((cvFilter.initState !![5; 6] cvFilter.P_).update !![9] cvFilter.C_
        cvFilter.R_).map (fun t1 => t1.P_) :=
  ⟨rfl,
    ⟨_, updateEKF_of_isUnit cvFilter !![2] !![0] cvFilter.C_ cvFilter.R_ cvFilter_isUnit_S⟩,
    (update_P_independent cvFilter (cvFilter.initState !![5; 6] cvFilter.P_) cvFilter.C_
      cvFilter.R_ rfl).1 !![2] !![0] !![9] !![4],
    (update_P_independent cvFilter (cvFilter.initState !![5; 6] cvFilter.P_) cvFilter.C_
      cvFilter.R_ rfl).2 !![2] !![9]⟩

end KalmanFilter
